import Mathlib

/-!
# Verification of the agent-runtime execution orchestrator

A shallow embedding of the execution core of the repository
(`src/orchestrator/executor.py`, `src/tools/base.py`,
`src/tools/calculator.py`, `src/tools/todo_store.py`, `src/models.py`)
together with theorems settling the design claims about it.

Modelling conventions:
* Python `Dict[str, Any]` values are association lists over a `Value` type;
  Python `int` is `Int`, Python `float` is `ℚ` (the delays and arithmetic
  results used here are produced by exact operations), `None` is `vNone`.
* Timestamps (`datetime.utcnow()`) are an abstract `now : ℕ` parameter;
  only their presence/absence matters to the claims.
* A tool invocation (`Orchestrator._execute_step`) either returns a
  `ToolResult` or raises; both are captured by `Outcome`, and a whole run's
  tool behavior by an environment `Env` giving the outcome of the n-th
  invocation.  Quantifying over `Env` covers arbitrary (stateful) tools.
* Python exceptions that can cross a function boundary are made explicit
  (`Except` / an `Option String` exception component); code paths on which
  the source cannot raise are modelled as total.
-/

set_option linter.unusedVariables false

namespace AgentRuntime

/-- Python values appearing in tool inputs and outputs (`Dict[str, Any]`).
`vInt` models Python `int`, `vNum` models Python `float` (over `ℚ`),
`vNone` is `None`. -/
inductive Value where
  | vStr (s : String)
  | vInt (n : Int)
  | vNum (q : ℚ)
  | vBool (b : Bool)
  | vNone
  | vList (xs : List Value)
  | vDict (xs : List (String × Value))

/-- A Python `dict` with string keys (keys unique, insertion ordered),
as an association list. -/
abbrev Input := List (String × Value)

/-- Python `d.get(k)` (`None` when absent). -/
def pyGet (d : Input) (k : String) : Option Value :=
  (d.find? (fun p => p.1 == k)).map (fun p => p.2)

/-- Python `d.get(k, default)`. -/
def pyGetD (d : Input) (k : String) (v : Value) : Value :=
  (pyGet d k).getD v

/-- Python truthiness of a value (`if not x`). -/
def pyTruthy : Value → Bool
  | .vStr s => s != ""
  | .vInt n => n != 0
  | .vNum q => decide (q ≠ 0)
  | .vBool b => b
  | .vNone => false
  | .vList xs => !xs.isEmpty
  | .vDict xs => !xs.isEmpty

/-- Python truthiness of an optional value (`dict.get` may yield `None`). -/
def pyTruthyOpt : Option Value → Bool
  | none => false
  | some v => pyTruthy v

/-- Model of `RunStatus` (models.py lines 12-17). -/
inductive RunStatus where
  | pending
  | running
  | completed
  | failed
deriving DecidableEq

/-- Model of `StepStatus` (models.py lines 20-25). -/
inductive StepStatus where
  | pending
  | running
  | completed
  | failed
deriving DecidableEq

/-- Model of `PlanStep` (models.py lines 28-33). -/
structure PlanStep where
  step_number : Int
  tool : String
  input : Input
  reasoning : String

/-- Model of `Plan` (models.py lines 36-39). -/
structure Plan where
  plan_id : String
  steps : List PlanStep

/-- Model of `ExecutionLogEntry` (models.py lines 42-52). -/
structure ExecutionLogEntry where
  step_number : Int
  tool : String
  input : Input
  output : Option Value
  status : StepStatus
  error : Option String
  attempt : ℕ
  started_at : ℕ
  completed_at : Option ℕ

/-- Model of `Run` (models.py lines 55-64). -/
structure Run where
  run_id : String
  prompt : String
  status : RunStatus
  plan : Option Plan
  execution_log : List ExecutionLogEntry
  created_at : ℕ
  completed_at : Option ℕ
  error : Option String

/-- Model of `ToolResult` (models.py lines 78-82). -/
structure ToolResult where
  success : Bool
  output : Option Value
  error : Option String

/-- Model of `ExecutionConfig` (executor.py lines 14-27). -/
structure ExecutionConfig where
  max_retries : ℕ
  initial_retry_delay : ℚ
  backoff_multiplier : ℚ
  step_timeout : ℚ

/-- The default configuration (executor.py lines 17-22). -/
def defaultConfig : ExecutionConfig :=
  { max_retries := 2, initial_retry_delay := 1, backoff_multiplier := 2, step_timeout := 30 }

/-- Result of one call to `Orchestrator._execute_step`: the `ToolResult`
the tool returned, or a Python exception with message `e` (covering both
tool-raised exceptions and the registry's tool-not-found `ValueError`). -/
inductive Outcome where
  | ok (result : ToolResult)
  | exn (e : String)

/-- Tool-execution environment: the outcome of the n-th `_execute_step`
invocation of a run, for the step it is invoked on.  Quantifying over `env`
covers every tool behavior, stateful or not. -/
abbrev Env := ℕ → PlanStep → Outcome

/-- Python `str(x)` for an `Optional[str]`, as used by the f-strings
building `run.error` (`str(None) = "None"`). -/
def pyStrOpt : Option String → String
  | none => "None"
  | some s => s

/-- The log entry as first constructed for an attempt
(executor.py lines 106-112): status running, attempt set, no result yet. -/
def runningEntry (step : PlanStep) (now attempt : ℕ) : ExecutionLogEntry :=
  { step_number := step.step_number, tool := step.tool, input := step.input,
    output := none, status := .running, error := none, attempt := attempt,
    started_at := now, completed_at := none }

/-- The terminal form of one attempt's log entry, from the outcome of
`_execute_step` (executor.py lines 114-136): a returned `ToolResult` fills
output/error and sets completed/failed from `success`; an exception sets
failed with an `"Execution exception: "` message. -/
def attemptEntry (step : PlanStep) (now attempt : ℕ) : Outcome → ExecutionLogEntry
  | .ok result =>
      { runningEntry step now attempt with
        status := if result.success then .completed else .failed,
        output := result.output, error := result.error, completed_at := some now }
  | .exn e =>
      { runningEntry step now attempt with
        status := .failed, error := some ("Execution exception: " ++ e),
        completed_at := some now }

/-- The `while attempt <= max_retries` loop of `_execute_step_with_retry`
(executor.py lines 102-145).  `a` is the pre-increment attempt counter and
`fuel = max_retries - a` the number of retries still allowed, so the
`fuel = 0` exit is exactly the source's `attempt > max_retries` check
(line 139); the success test `entry.status = completed` is the source's
`result.success` (line 125), which determined that status.  `c` is the
index of the run's next `_execute_step` invocation; `sleeps` accumulates
the arguments passed to `time.sleep` (line 144) in order. -/
def retryGo (env : Env) (step : PlanStep) (now : ℕ) (mult : ℚ) (c : ℕ) :
    ℕ → ℕ → ℚ → List ℚ → ExecutionLogEntry × List ℚ
  | a, fuel, delay, sleeps =>
    let entry := attemptEntry step now (a + 1) (env (c + a) step)
    if entry.status = .completed then (entry, sleeps)
    else
      match fuel with
      | 0 => (entry, sleeps)
      | fuel' + 1 =>
          retryGo env step now mult c (a + 1) fuel' (delay * mult) (sleeps ++ [delay])

/-- Model of `Orchestrator._execute_step_with_retry` (executor.py lines 88-151),
paired with the trace of sleep arguments.  The fallthrough after the loop
(lines 147-151, "should never be reached") is unreachable and not
modelled: the loop always returns from within. -/
def execute_step_with_retry (cfg : ExecutionConfig) (env : Env) (now : ℕ)
    (step : PlanStep) (c : ℕ) : ExecutionLogEntry × List ℚ :=
  retryGo env step now cfg.backoff_multiplier c 0 cfg.max_retries
    cfg.initial_retry_delay []

/-- The `for step in plan.steps` loop of `execute_run`
(executor.py lines 63-78), threading the invocation counter `c`.  The
enclosing `except Exception` (lines 80-84) is dead in the model: every
fault of step execution already surfaces as an `Outcome` handled inside
the retry loop. -/
def executeRunGo (cfg : ExecutionConfig) (env : Env) (now : ℕ) :
    Run → List PlanStep → ℕ → Run
  | run, [], _ => { run with status := .completed, completed_at := some now }
  | run, step :: rest, c =>
    let entry := (execute_step_with_retry cfg env now step c).1
    let run' := { run with execution_log := run.execution_log ++ [entry] }
    if entry.status = .failed then
      { run' with
        status := .failed,
        error := some ("Step " ++ toString step.step_number ++ " failed: "
          ++ pyStrOpt entry.error),
        completed_at := some now }
    else
      executeRunGo cfg env now run' rest (c + entry.attempt)

/-- Model of `Orchestrator.execute_run` (executor.py lines 48-86). -/
def execute_run (cfg : ExecutionConfig) (env : Env) (now : ℕ)
    (run : Run) (plan : Plan) : Run :=
  executeRunGo cfg env now
    { run with plan := some plan, status := .running } plan.steps 0

/-- Python `log.input.get("operation") == "add"` (executor.py line 202):
true exactly for the string value `"add"`. -/
def opIsAdd (input : Input) : Bool :=
  match pyGet input "operation" with
  | some (.vStr s) => s == "add"
  | _ => false

/-- Model of `Orchestrator.can_retry_run` (executor.py lines 174-206). -/
def can_retry_run (run : Run) : Bool :=
  if run.status ≠ RunStatus.failed then false
  else
    let completed_steps :=
      run.execution_log.filter (fun log => decide (log.status = StepStatus.completed))
    if completed_steps.any (fun log => log.tool == "TodoStore" && opIsAdd log.input) then
      false
    else true

/-- The `last_completed_step` computation of `resume_run`
(executor.py lines 224-228): a fold of `max` over completed entries,
starting from `0`. -/
def lastCompletedStep (run : Run) : Int :=
  run.execution_log.foldl
    (fun acc log =>
      if log.status = StepStatus.completed then max acc log.step_number else acc) 0

/-- The `for step in run.plan.steps` loop of `resume_run`
(executor.py lines 233-250): steps numbered at most `last` are skipped;
a clean finish sets completed and clears `run.error`. -/
def resumeGo (cfg : ExecutionConfig) (env : Env) (now : ℕ) (last : Int) :
    Run → List PlanStep → ℕ → Run
  | run, [], _ => { run with status := .completed, completed_at := some now, error := none }
  | run, step :: rest, c =>
    if step.step_number ≤ last then resumeGo cfg env now last run rest c
    else
      let entry := (execute_step_with_retry cfg env now step c).1
      let run' := { run with execution_log := run.execution_log ++ [entry] }
      if entry.status = .failed then
        { run' with
          status := .failed,
          error := some ("Step " ++ toString step.step_number ++ " failed on resume: "
            ++ pyStrOpt entry.error),
          completed_at := some now }
      else
        resumeGo cfg env now last run' rest (c + entry.attempt)

/-- Model of `Orchestrator.resume_run` (executor.py lines 208-257).  The first
component is the state of the `run` object when control leaves the method;
the second is the message of a `ValueError` propagating to the caller
(`none` when the call returns normally).  The two precondition checks
(lines 218-222) raise before any mutation. -/
def resume_run (cfg : ExecutionConfig) (env : Env) (now : ℕ) (run : Run) :
    Run × Option String :=
  if ¬ can_retry_run run then (run, some "Run cannot be resumed")
  else
    match run.plan with
    | none => (run, some "Run has no plan to resume")
    | some plan =>
      let last := lastCompletedStep run
      (resumeGo cfg env now last { run with status := .running } plan.steps 0, none)

/-- The sequence of terminal log entries produced by executing `steps` in
order from invocation counter `c`, paired with the final counter (the
entries `execute_run` would append if no failure stopped it early). -/
def runTrace (cfg : ExecutionConfig) (env : Env) (now : ℕ) :
    List PlanStep → ℕ → List ExecutionLogEntry × ℕ
  | [], c => ([], c)
  | step :: rest, c =>
    let entry := (execute_step_with_retry cfg env now step c).1
    let t := runTrace cfg env now rest (c + entry.attempt)
    (entry :: t.1, t.2)

/-- A registered tool's behavior: the result of its `execute` on the n-th
`_execute_step` invocation of the run (the index covers stateful tools). -/
abbrev ToolBehavior := ℕ → Input → Outcome

/-- Model of `ToolRegistry._tools` (base.py line 84), insertion ordered. -/
abbrev ToolRegistry := List (String × ToolBehavior)

/-- Membership lookup in the registry's dict. -/
def registryLookup (reg : ToolRegistry) (name : String) : Option ToolBehavior :=
  (reg.find? (fun p => p.1 == name)).map (fun p => p.2)

/-- Model of `ToolRegistry.get` (base.py lines 90-94): raises
`ValueError(f"Tool '{name}' not found in registry")` when absent. -/
def registryGet (reg : ToolRegistry) (name : String) : Except String ToolBehavior :=
  match registryLookup reg name with
  | none => .error ("Tool '" ++ name ++ "' not found in registry")
  | some t => .ok t

/-- Model of `Orchestrator._execute_step` (executor.py lines 153-172) under
registry `reg`, as an environment: the registry's not-found `ValueError`
surfaces as an exception outcome. -/
def registryEnv (reg : ToolRegistry) : Env := fun n step =>
  match registryGet reg step.tool with
  | .error e => .exn e
  | .ok beh => beh n step.input

/-- Whether an outcome is a failure for the retry loop: a returned
`ToolResult` with `success = False`, or any raised exception. -/
def Outcome.fails : Outcome → Prop
  | .ok r => r.success = false
  | .exn _ => True

/-- Whether an outcome is an immediately-returned success. -/
def Outcome.succeeds : Outcome → Prop
  | .ok r => r.success = true
  | .exn _ => False

/-- The geometric sequence of backoff delays
`[d, d*m, d*m^2, ...]` of length `n`. -/
def geomList (d m : ℚ) : ℕ → List ℚ
  | 0 => []
  | n + 1 => d :: geomList (d * m) m n

/-! ## The bundled tools: Calculator and TodoStore -/

/-- The primitive type tags of a tool's declared `input_schema`
(base.py lines 64-75). -/
inductive SchemaType where
  | string
  | number
  | integer
  | boolean

/-- The part of an `input_schema` that `Tool.validate_input` consults:
required field names and per-field primitive type tags. -/
structure ToolSchema where
  required : List String
  properties : List (String × SchemaType)

/-- The `isinstance` checks of `Tool.validate_input` (base.py lines
68-75).  Python `bool` is a subclass of `int`, so booleans satisfy the
`number` and `integer` tags. -/
def typeMatches : SchemaType → Value → Bool
  | .string, .vStr _ => true
  | .number, .vInt _ => true
  | .number, .vNum _ => true
  | .number, .vBool _ => true
  | .integer, .vInt _ => true
  | .integer, .vBool _ => true
  | .boolean, .vBool _ => true
  | _, _ => false

/-- Model of `Tool.validate_input` (base.py lines 44-77): every required field is
present, and every supplied field with a declared property matches its
primitive type tag. -/
def validate_input (schema : ToolSchema) (input : Input) : Bool :=
  (schema.required.all (fun f => (pyGet input f).isSome)) &&
  (input.all (fun p =>
    match (schema.properties.find? (fun q => q.1 == p.1)).map (fun q => q.2) with
    | some t => typeMatches t p.2
    | none => true))

/-- Model of `Calculator.input_schema` (calculator.py lines 36-46). -/
def calculatorSchema : ToolSchema :=
  { required := ["expression"], properties := [("expression", .string)] }

/-- The literal `dangerous_patterns` of `Calculator.execute`
(calculator.py lines 75-82). -/
def dangerousPatterns : List String :=
  ["__", "import", "exec", "eval", "open", "lambda"]

/-- Substring containment over character lists. -/
def hasInfixChars (needle : List Char) : List Char → Bool
  | [] => needle.isEmpty
  | c :: rest => needle.isPrefixOf (c :: rest) || hasInfixChars needle rest

/-- Model of `re.search(pattern, expression, re.IGNORECASE)` for the literal
patterns above: case-insensitive substring search. -/
def searchIgnoreCase (pat expression : String) : Bool :=
  hasInfixChars pat.toLower.data expression.toLower.data

/-- The first dangerous pattern found in the expression, if any
(calculator.py lines 84-89 report the first match of the `for` loop). -/
def firstForbidden (expression : String) : Option String :=
  dangerousPatterns.find? (fun p => searchIgnoreCase p expression)

/-- Python's `\s` class (ASCII range): space, tab, newline, carriage
return, vertical tab, form feed. -/
def pyIsSpace (c : Char) : Bool :=
  c == ' ' || c == '\t' || c == '\n' || c == '\r' || c == '\x0b' || c == '\x0c'

/-- Membership in the character class of the whitelist regex
`^[\d\s\+\-\*\/\(\)\.\*\*]+$` (calculator.py line 92).  `\d` is modelled
as ASCII digits. -/
def allowedChar (c : Char) : Bool :=
  c.isDigit || pyIsSpace c || c == '+' || c == '-' || c == '*' || c == '/' ||
    c == '(' || c == ')' || c == '.'

/-- Model of `re.match` of the whitelist regex: one or more allowed characters
spanning the whole (already-stripped) expression. -/
def matchesAllowed (expression : String) : Bool :=
  !expression.data.isEmpty && expression.data.all allowedChar

/-- Binary operator kinds of the Python AST as classified by
`Calculator._eval_node`: the allowed five, or any other operator class
(by name), which is rejected. -/
inductive BinOpKind where
  | add
  | sub
  | mult
  | div
  | pow
  | otherOp (name : String)

/-- Unary operator kinds: `USub`, `UAdd`, or a rejected class. -/
inductive UnaryOpKind where
  | usub
  | uadd
  | otherUn (name : String)

/-- Python AST expression nodes reachable under
`ast.parse(expression, mode="eval").body` for a whitelisted arithmetic
expression, as consumed by `Calculator._eval_node` (calculator.py lines
136-168): numeric constants (`ℚ` models the int/float value), binary and
unary operations, and any other node kind (by class name), which
`_eval_node` rejects. -/
inductive PyExpr where
  | const (q : ℚ)
  | binOp (op : BinOpKind) (l r : PyExpr)
  | unaryOp (op : UnaryOpKind) (e : PyExpr)
  | otherNode (name : String)

/-- The exceptions `Calculator.execute` distinguishes when evaluating:
`ZeroDivisionError`, and `ValueError`/any other exception with its
`str` message. -/
inductive PyEvalErr where
  | zeroDiv
  | valueError (msg : String)

/-- Model of `Calculator._eval_node` (calculator.py lines 136-168).  Operands are
evaluated before the operator class is checked, as in the source.
`powFn` models Python's float `**` (`operator.pow`), a language builtin
outside the repository. -/
def eval_node (powFn : ℚ → ℚ → Except PyEvalErr ℚ) : PyExpr → Except PyEvalErr ℚ
  | .const q => .ok q
  | .binOp op l r => do
    let lv ← eval_node powFn l
    let rv ← eval_node powFn r
    match op with
    | .add => .ok (lv + rv)
    | .sub => .ok (lv - rv)
    | .mult => .ok (lv * rv)
    | .div => if rv = 0 then .error .zeroDiv else .ok (lv / rv)
    | .pow => powFn lv rv
    | .otherOp name => .error (.valueError ("Operator " ++ name ++ " not allowed"))
  | .unaryOp op e => do
    let v ← eval_node powFn e
    match op with
    | .usub => .ok (-v)
    | .uadd => .ok v
    | .otherUn name => .error (.valueError ("Operator " ++ name ++ " not allowed"))
  | .otherNode name => .error (.valueError ("Unsupported node type: " ++ name))

/-- Model of `Calculator._safe_eval` (calculator.py lines 115-134).  `ast.parse`
is a Python builtin modelled as the abstract `parse` parameter; a
`SyntaxError` with message `m` is re-raised as
`ValueError("Invalid expression syntax: " ++ m)` as in the source. -/
def safe_eval (parse : String → Except String PyExpr)
    (powFn : ℚ → ℚ → Except PyEvalErr ℚ) (expression : String) :
    Except PyEvalErr ℚ :=
  match parse expression with
  | .error m => .error (.valueError ("Invalid expression syntax: " ++ m))
  | .ok node => eval_node powFn node

/-- Model of `Calculator.execute` (calculator.py lines 48-113).  The `parse` and
`powFn` parameters stand for the Python builtins `ast.parse` and
`operator.pow`; every return path of the source is represented. -/
def calculatorExecute (parse : String → Except String PyExpr)
    (powFn : ℚ → ℚ → Except PyEvalErr ℚ) (input_data : Input) : ToolResult :=
  if !(validate_input calculatorSchema input_data) then
    { success := false, output := none,
      error := some "Invalid input: 'expression' field is required and must be a string" }
  else
    match pyGet input_data "expression" with
    | some (.vStr raw) =>
      let expression := raw.trim
      if expression == "" then
        { success := false, output := none, error := some "Expression cannot be empty" }
      else
        match firstForbidden expression with
        | some pat =>
          { success := false, output := none,
            error := some ("Unsafe expression: contains forbidden pattern '" ++ pat ++ "'") }
        | none =>
          if !(matchesAllowed expression) then
            { success := false, output := none,
              error := some "Expression contains invalid characters. Only numbers, +, -, *, /, **, (, ) are allowed" }
          else
            match safe_eval parse powFn expression with
            | .ok result =>
              { success := true, output := some (.vNum result), error := none }
            | .error .zeroDiv =>
              { success := false, output := none, error := some "Division by zero" }
            | .error (.valueError m) =>
              { success := false, output := none, error := some ("Evaluation error: " ++ m) }
    | _ =>
      { success := false, output := none,
        error := some "Invalid input: 'expression' field is required and must be a string" }

/-- A `Todo` item (todo_store.py lines 12-21).  Timestamps are ticks. -/
structure Todo where
  id : String
  title : String
  description : Value
  completed : Bool
  created_at : ℕ
  completed_at : Option ℕ

/-- Model of `Todo.to_dict` (todo_store.py lines 23-32); isoformat timestamps are
modelled as the tick rendered to a string. -/
def Todo.to_dict (t : Todo) : Value :=
  .vDict [("id", .vStr t.id), ("title", .vStr t.title),
          ("description", t.description), ("completed", .vBool t.completed),
          ("created_at", .vStr (toString t.created_at)),
          ("completed_at",
            match t.completed_at with
            | none => .vNone
            | some n => .vStr (toString n))]

/-- Model of `TodoStore._todos`: a Python dict keyed by todo id, insertion
ordered. -/
abbrev TodoState := List (String × Todo)

/-- Python dict assignment `d[k] = v`: replaces in place, else appends. -/
def dictInsert : TodoState → String → Todo → TodoState
  | [], k, v => [(k, v)]
  | (k', v') :: rest, k, v =>
    if k' == k then (k, v) :: rest else (k', v') :: dictInsert rest k v

/-- Python dict `d.pop(k)` (key known present): removes the entry. -/
def dictPop : TodoState → String → TodoState
  | [], _ => []
  | (k', v') :: rest, k => if k' == k then rest else (k', v') :: dictPop rest k

/-- Membership lookup in the todo dict. -/
def todoLookup (st : TodoState) (k : String) : Option Todo :=
  (st.find? (fun p => p.1 == k)).map (fun p => p.2)

/-- The Python type name of a value, as it appears in an
`AttributeError` message. -/
def pyTypeName : Value → String
  | .vStr _ => "str"
  | .vInt _ => "int"
  | .vNum _ => "float"
  | .vBool _ => "bool"
  | .vNone => "NoneType"
  | .vList _ => "list"
  | .vDict _ => "dict"

/-- Python `v.strip()`: defined only on `str`; on any other value it
raises `AttributeError`. -/
def pyStrip : Value → Except String String
  | .vStr s => .ok s.trim
  | v => .error ("'" ++ pyTypeName v ++ "' object has no attribute 'strip'")

/-- Python `str(v)` as interpolated into the invalid-operation message;
container renderings are abbreviated. -/
def pyStr : Value → String
  | .vStr s => s
  | .vInt n => toString n
  | .vNum q => toString q
  | .vBool b => if b then "True" else "False"
  | .vNone => "None"
  | .vList _ => "[...]"
  | .vDict _ => "\x7b...\x7d"

/-- Python `v == s` for a string literal `s`: only equal strings compare
equal (no other bundled value kind equals a non-empty string). -/
def valueEqStr (v : Value) (s : String) : Bool :=
  match v with
  | .vStr t => t == s
  | _ => false

/-- Model of `TodoStore._add_todo` (todo_store.py lines 109-129).  `freshId` is
the `uuid4` generated for the new item; the `Except` captures the
`AttributeError` raised by `.strip()` on a non-string title. -/
def addTodo (input_data : Input) (st : TodoState) (freshId : String) (now : ℕ) :
    Except String (ToolResult × TodoState) := do
  let title ← pyStrip (pyGetD input_data "title" (.vStr ""))
  if title == "" then
    return ({ success := false, output := none,
              error := some "'title' is required for add operation" }, st)
  else
    let description := pyGetD input_data "description" (.vStr "")
    let todo : Todo :=
      { id := freshId, title := title, description := description,
        completed := false, created_at := now, completed_at := none }
    return ({ success := true,
              output := some (.vDict [("message", .vStr "Todo added successfully"),
                                      ("todo", todo.to_dict)]),
              error := none }, dictInsert st freshId todo)

/-- Model of `TodoStore._list_todos` (todo_store.py lines 131-141). -/
def listTodos (st : TodoState) : ToolResult :=
  let todos_list := st.map (fun p => p.2.to_dict)
  { success := true,
    output := some (.vDict [("count", .vInt (todos_list.length : Int)),
                            ("todos", .vList todos_list)]),
    error := none }

/-- Model of `TodoStore._complete_todo` (todo_store.py lines 143-178). -/
def completeTodo (input_data : Input) (st : TodoState) (now : ℕ) :
    Except String (ToolResult × TodoState) := do
  let todo_id ← pyStrip (pyGetD input_data "todo_id" (.vStr ""))
  if todo_id == "" then
    return ({ success := false, output := none,
              error := some "'todo_id' is required for complete operation" }, st)
  else
    match todoLookup st todo_id with
    | none =>
      return ({ success := false, output := none,
                error := some ("Todo with id '" ++ todo_id ++ "' not found") }, st)
    | some todo =>
      if todo.completed then
        return ({ success := true,
                  output := some (.vDict [("message", .vStr "Todo was already completed"),
                                          ("todo", todo.to_dict)]),
                  error := none }, st)
      else
        let todo' := { todo with completed := true, completed_at := some now }
        return ({ success := true,
                  output := some (.vDict [("message", .vStr "Todo marked as completed"),
                                          ("todo", todo'.to_dict)]),
                  error := none }, dictInsert st todo_id todo')

/-- Model of `TodoStore._delete_todo` (todo_store.py lines 180-204). -/
def deleteTodo (input_data : Input) (st : TodoState) :
    Except String (ToolResult × TodoState) := do
  let todo_id ← pyStrip (pyGetD input_data "todo_id" (.vStr ""))
  if todo_id == "" then
    return ({ success := false, output := none,
              error := some "'todo_id' is required for delete operation" }, st)
  else
    match todoLookup st todo_id with
    | none =>
      return ({ success := false, output := none,
                error := some ("Todo with id '" ++ todo_id ++ "' not found") }, st)
    | some todo =>
      return ({ success := true,
                output := some (.vDict [("message", .vStr "Todo deleted successfully"),
                                        ("deleted_todo", todo.to_dict)]),
                error := none }, dictPop st todo_id)

/-- Model of `TodoStore.execute` (todo_store.py lines 75-107): truthiness and
membership checks on `operation`, then routing.  The final `elif` of the
source is the residual `else` here: after the membership check the
operation is one of the four literals.  The `Except` carries any
`AttributeError` propagating out of a handler. -/
def todoExecute (input_data : Input) (st : TodoState) (freshId : String) (now : ℕ) :
    Except String (ToolResult × TodoState) :=
  let operation := pyGet input_data "operation"
  if pyTruthyOpt operation = false then
    .ok ({ success := false, output := none,
           error := some "Missing required field: 'operation'" }, st)
  else
    match operation with
    | some opv =>
      if !(valueEqStr opv "add" || valueEqStr opv "list" ||
           valueEqStr opv "complete" || valueEqStr opv "delete") then
        .ok ({ success := false, output := none,
               error := some ("Invalid operation: '" ++ pyStr opv
                 ++ "'. Must be one of: add, list, complete, delete") }, st)
      else if valueEqStr opv "add" then addTodo input_data st freshId now
      else if valueEqStr opv "list" then .ok (listTodos st, st)
      else if valueEqStr opv "complete" then completeTodo input_data st now
      else deleteTodo input_data st
    | none =>
      .ok ({ success := false, output := none,
             error := some "Missing required field: 'operation'" }, st)

/-- The ToolResult exclusivity contract: success means no error; failure
means a non-empty error message and no output. -/
def resultExclusive (r : ToolResult) : Prop :=
  (r.success = true → r.error = none) ∧
  (r.success = false → r.output = none ∧ ∃ e, r.error = some e ∧ e ≠ "")

/-- The terminal log entry of a step that succeeded on its first attempt
with tool result `r`. -/
def successEntry (step : PlanStep) (r : ToolResult) (now : ℕ) : ExecutionLogEntry :=
  { step_number := step.step_number, tool := step.tool, input := step.input,
    output := r.output, status := .completed, error := r.error, attempt := 1,
    started_at := now, completed_at := some now }

/-- A run skeleton for the concrete instantiations below. -/
def sampleRun (st : RunStatus) (pl : Option Plan) (log : List ExecutionLogEntry)
    (err : Option String) : Run :=
  { run_id := "r", prompt := "p", status := st, plan := pl, execution_log := log,
    created_at := 0, completed_at := none, error := err }

/-- An environment whose every invocation returns a bare success. -/
def envAlwaysOk : Env := fun _ _ => .ok { success := true, output := none, error := none }

/-- A plan of two negatively numbered steps (step numbering is any `int`
in the data model). -/
def negPlan : Plan :=
  { plan_id := "p5",
    steps := [{ step_number := -2, tool := "Calculator", input := [], reasoning := "" },
              { step_number := -1, tool := "Calculator", input := [], reasoning := "" }] }

/-- A completed log entry for step -2. -/
def negEntryA : ExecutionLogEntry :=
  { step_number := -2, tool := "Calculator", input := [], output := none,
    status := .completed, error := none, attempt := 1, started_at := 0,
    completed_at := some 0 }

/-- A failed log entry for step -1. -/
def negEntryB : ExecutionLogEntry :=
  { step_number := -1, tool := "Calculator", input := [], output := none,
    status := .failed, error := some "boom", attempt := 3, started_at := 0,
    completed_at := some 0 }

/-- A failed run over `negPlan`: step -2 completed, step -1 failed. -/
def negRun : Run :=
  sampleRun .failed (some negPlan) [negEntryA, negEntryB] (some "Step -1 failed: boom")

/-! ## Lemmas about the retry loop -/

theorem attemptEntry_attempt (step : PlanStep) (now a : ℕ) (o : Outcome) :
    (attemptEntry step now a o).attempt = a := by
  cases o <;> rfl

theorem attemptEntry_status_of_fails (step : PlanStep) (now a : ℕ) {o : Outcome}
    (h : o.fails) : (attemptEntry step now a o).status = .failed := by
  cases o with
  | ok r =>
    simp only [Outcome.fails] at h
    simp [attemptEntry, h]
  | exn e => rfl

theorem attemptEntry_status_of_succeeds (step : PlanStep) (now a : ℕ) {o : Outcome}
    (h : o.succeeds) : (attemptEntry step now a o).status = .completed := by
  cases o with
  | ok r =>
    simp only [Outcome.succeeds] at h
    simp [attemptEntry, h]
  | exn e => exact absurd h (by simp [Outcome.succeeds])

/-- When every attempt's outcome is a failure, the retry loop runs to
exhaustion: the returned entry is the last attempt's, and one sleep per
non-final iteration is performed with geometrically growing delay. -/
theorem retryGo_fail_all (env : Env) (step : PlanStep) (now : ℕ) (mult : ℚ) (c : ℕ)
    (hfail : ∀ k, (env (c + k) step).fails) :
    ∀ (fuel a : ℕ) (delay : ℚ) (sleeps : List ℚ),
      retryGo env step now mult c a fuel delay sleeps
        = (attemptEntry step now (a + fuel + 1) (env (c + (a + fuel)) step),
           sleeps ++ geomList delay mult fuel) := by
  intro fuel
  induction fuel with
  | zero =>
    intro a delay sleeps
    rw [retryGo.eq_def]
    have hst := attemptEntry_status_of_fails step now (a + 1) (hfail a)
    simp [hst, geomList]
  | succ fuel ih =>
    intro a delay sleeps
    rw [retryGo.eq_def]
    have hst := attemptEntry_status_of_fails step now (a + 1) (hfail a)
    simp only [hst]
    rw [if_neg (by simp)]
    rw [ih (a + 1) (delay * mult) (sleeps ++ [delay])]
    have h1 : a + 1 + fuel = a + (fuel + 1) := by omega
    rw [h1]
    simp [geomList]

/-- The sleep trace of the retry loop is always the geometric schedule of
length one less than the attempt count of the returned entry. -/
theorem retryGo_sleeps (env : Env) (step : PlanStep) (now : ℕ) (mult : ℚ) (c : ℕ) :
    ∀ (fuel a : ℕ) (delay : ℚ) (sleeps : List ℚ),
      (retryGo env step now mult c a fuel delay sleeps).2
        = sleeps ++ geomList delay mult
            ((retryGo env step now mult c a fuel delay sleeps).1.attempt - (a + 1)) ∧
      a + 1 ≤ (retryGo env step now mult c a fuel delay sleeps).1.attempt := by
  intro fuel
  induction fuel with
  | zero =>
    intro a delay sleeps
    rw [retryGo.eq_def]
    by_cases h : (attemptEntry step now (a + 1) (env (c + a) step)).status = .completed <;>
      simp [h, attemptEntry_attempt, geomList]
  | succ fuel ih =>
    intro a delay sleeps
    rw [retryGo.eq_def]
    by_cases h : (attemptEntry step now (a + 1) (env (c + a) step)).status = .completed
    · simp [h, attemptEntry_attempt, geomList]
    · simp only [h, if_false]
      obtain ⟨h2, h1⟩ := ih (a + 1) (delay * mult) (sleeps ++ [delay])
      refine ⟨?_, by omega⟩
      rw [h2]
      have h3 : (retryGo env step now mult c (a + 1) fuel (delay * mult)
          (sleeps ++ [delay])).1.attempt - (a + 1)
          = ((retryGo env step now mult c (a + 1) fuel (delay * mult)
              (sleeps ++ [delay])).1.attempt - (a + 1 + 1)) + 1 := by omega
      rw [h3]
      simp [geomList]

theorem geomList_get (m : ℚ) :
    ∀ (n i : ℕ) (d : ℚ), i < n → (geomList d m n).get? i = some (d * m ^ i) := by
  intro n
  induction n with
  | zero => intro i d h; exact absurd h (Nat.not_lt_zero i)
  | succ n ih =>
    intro i d h
    cases i with
    | zero => simp [geomList]
    | succ i =>
      simp only [geomList, List.get?_cons_succ]
      rw [ih i (d * m) (by omega)]
      congr 1
      rw [pow_succ]
      ring

/-! ## Claim C2: retry exhaustion and first-call success -/

/-- C2: for every step whose tool fails (returns success=false or raises)
on every attempt, with max_retries = N the retry loop performs exactly
N+1 attempts and the single returned terminal log entry has attempt = N+1
and status failed; if the tool succeeds on the first call, the returned
entry has attempt = 1 regardless of max_retries. -/
theorem retry_exhaustion_and_first_success (cfg : ExecutionConfig) (env : Env)
    (now : ℕ) (step : PlanStep) (c : ℕ) :
    ((∀ k, (env (c + k) step).fails) →
      (execute_step_with_retry cfg env now step c).1.attempt = cfg.max_retries + 1 ∧
      (execute_step_with_retry cfg env now step c).1.status = .failed) ∧
    ((env c step).succeeds →
      (execute_step_with_retry cfg env now step c).1.attempt = 1 ∧
      (execute_step_with_retry cfg env now step c).1.status = .completed) := by
  constructor
  · intro hfail
    unfold execute_step_with_retry
    rw [retryGo_fail_all env step now cfg.backoff_multiplier c hfail]
    exact ⟨by simp [attemptEntry_attempt],
           attemptEntry_status_of_fails step now _ (hfail _)⟩
  · intro hsucc
    unfold execute_step_with_retry
    rw [retryGo.eq_def]
    have hst : (attemptEntry step now 1 (env c step)).status = StepStatus.completed :=
      attemptEntry_status_of_succeeds step now 1 hsucc
    simp [hst, attemptEntry_attempt]

/-- C2 witness: a concrete always-raising tool exhausts the default two
retries with a terminal attempt count of 3; a first-call success returns
attempt 1. -/
theorem retry_exhaustion_and_first_success_witness :
    ((execute_step_with_retry defaultConfig (fun _ _ => .exn "boom") 0
        { step_number := 1, tool := "T", input := [], reasoning := "" } 0).1.attempt = 3 ∧
      (execute_step_with_retry defaultConfig (fun _ _ => .exn "boom") 0
        { step_number := 1, tool := "T", input := [], reasoning := "" } 0).1.status = .failed) ∧
    ((execute_step_with_retry defaultConfig
        (fun _ _ => .ok { success := true, output := none, error := none }) 0
        { step_number := 1, tool := "T", input := [], reasoning := "" } 0).1.attempt = 1 ∧
      (execute_step_with_retry defaultConfig
        (fun _ _ => .ok { success := true, output := none, error := none }) 0
        { step_number := 1, tool := "T", input := [], reasoning := "" } 0).1.status = .completed) :=
  ⟨(retry_exhaustion_and_first_success defaultConfig (fun _ _ => .exn "boom") 0
      { step_number := 1, tool := "T", input := [], reasoning := "" } 0).1
      (fun _ => trivial),
   (retry_exhaustion_and_first_success defaultConfig
      (fun _ _ => .ok { success := true, output := none, error := none }) 0
      { step_number := 1, tool := "T", input := [], reasoning := "" } 0).2
      rfl⟩

/-! ## Claim C6: tool-not-found faults are retried like any other -/

/-- C6: for every step whose tool name is not registered, the registry's
not-found `ValueError` is caught by the exception path of the retry loop
and the step is retried up to max_retries times; the terminal entry has
attempt = max_retries + 1, status failed, and an
"Execution exception: Tool '...' not found in registry" error. -/
theorem tool_not_found_is_retried (cfg : ExecutionConfig) (reg : ToolRegistry)
    (now : ℕ) (step : PlanStep) (c : ℕ)
    (habs : registryLookup reg step.tool = none) :
    (execute_step_with_retry cfg (registryEnv reg) now step c).1.attempt
      = cfg.max_retries + 1 ∧
    (execute_step_with_retry cfg (registryEnv reg) now step c).1.status = .failed ∧
    (execute_step_with_retry cfg (registryEnv reg) now step c).1.error
      = some ("Execution exception: "
          ++ ("Tool '" ++ step.tool ++ "' not found in registry")) := by
  have henv : ∀ n, registryEnv reg n step
      = .exn ("Tool '" ++ step.tool ++ "' not found in registry") := by
    intro n
    simp [registryEnv, registryGet, habs]
  have hfail : ∀ k, ((registryEnv reg) (c + k) step).fails := by
    intro k
    rw [henv]
    trivial
  unfold execute_step_with_retry
  rw [retryGo_fail_all _ _ _ _ _ hfail]
  rw [henv]
  exact ⟨by simp [attemptEntry_attempt], rfl, rfl⟩

/-- C6 witness: with an empty registry and the default configuration, a
step naming tool "Ghost" is attempted 3 times and fails with the
not-found message wrapped as an execution exception. -/
theorem tool_not_found_is_retried_witness :
    registryLookup [] "Ghost" = none ∧
    (execute_step_with_retry defaultConfig (registryEnv []) 0
      { step_number := 1, tool := "Ghost", input := [], reasoning := "" } 0).1.attempt = 3 ∧
    (execute_step_with_retry defaultConfig (registryEnv []) 0
      { step_number := 1, tool := "Ghost", input := [], reasoning := "" } 0).1.status = .failed ∧
    (execute_step_with_retry defaultConfig (registryEnv []) 0
      { step_number := 1, tool := "Ghost", input := [], reasoning := "" } 0).1.error
      = some ("Execution exception: "
          ++ ("Tool '" ++ "Ghost" ++ "' not found in registry")) :=
  ⟨rfl,
   (tool_not_found_is_retried defaultConfig [] 0
      { step_number := 1, tool := "Ghost", input := [], reasoning := "" } 0 rfl).1,
   (tool_not_found_is_retried defaultConfig [] 0
      { step_number := 1, tool := "Ghost", input := [], reasoning := "" } 0 rfl).2.1,
   (tool_not_found_is_retried defaultConfig [] 0
      { step_number := 1, tool := "Ghost", input := [], reasoning := "" } 0 rfl).2.2⟩

/-! ## Claim C8: the backoff schedule -/

/-- C8: for every step and every attempt number k ≥ 2 that the retry loop
reaches, the delay slept between attempt k-1 and attempt k (the (k-2)-nd
sleep argument of the trace) equals
initial_retry_delay * backoff_multiplier^(k-2). -/
theorem backoff_schedule (cfg : ExecutionConfig) (env : Env) (now : ℕ)
    (step : PlanStep) (c k : ℕ) (hk2 : 2 ≤ k)
    (hk : k ≤ (execute_step_with_retry cfg env now step c).1.attempt) :
    (execute_step_with_retry cfg env now step c).2.get? (k - 2)
      = some (cfg.initial_retry_delay * cfg.backoff_multiplier ^ (k - 2)) := by
  unfold execute_step_with_retry at hk ⊢
  obtain ⟨h2, h1⟩ := retryGo_sleeps env step now cfg.backoff_multiplier c
    cfg.max_retries 0 cfg.initial_retry_delay []
  rw [h2]
  simp only [List.nil_append]
  apply geomList_get
  omega

/-- C8 witness: with the default configuration (initial delay 1, multiplier
2) and an always-failing tool, the sleep before attempt 3 is 1 * 2^1 = 2. -/
theorem backoff_schedule_witness :
    2 ≤ 3 ∧
    3 ≤ (execute_step_with_retry defaultConfig (fun _ _ => .exn "boom") 0
          { step_number := 1, tool := "T", input := [], reasoning := "" } 0).1.attempt ∧
    (execute_step_with_retry defaultConfig (fun _ _ => .exn "boom") 0
       { step_number := 1, tool := "T", input := [], reasoning := "" } 0).2.get? (3 - 2)
      = some (defaultConfig.initial_retry_delay * defaultConfig.backoff_multiplier ^ (3 - 2)) :=
  ⟨by omega, by decide,
   backoff_schedule defaultConfig (fun _ _ => .exn "boom") 0
     { step_number := 1, tool := "T", input := [], reasoning := "" } 0 3
     (by omega) (by decide)⟩

/-! ## Lemmas about the run loop -/

/-- When no step of the trace fails, `execute_run`'s loop appends exactly
the trace and marks the run completed. -/
theorem executeRunGo_all_ok (cfg : ExecutionConfig) (env : Env) (now : ℕ) :
    ∀ (steps : List PlanStep) (run : Run) (c : ℕ),
      (∀ e ∈ (runTrace cfg env now steps c).1, e.status ≠ .failed) →
      executeRunGo cfg env now run steps c
        = { run with
            status := .completed,
            execution_log := run.execution_log ++ (runTrace cfg env now steps c).1,
            completed_at := some now } := by
  intro steps
  induction steps with
  | nil =>
    intro run c h
    simp [executeRunGo, runTrace]
  | cons step rest ih =>
    intro run c h
    simp only [runTrace] at h
    have hhead : (execute_step_with_retry cfg env now step c).1.status ≠ .failed := by
      exact h _ (by simp)
    have htail : ∀ e ∈ (runTrace cfg env now rest
        (c + (execute_step_with_retry cfg env now step c).1.attempt)).1,
        e.status ≠ .failed := by
      intro e he
      exact h e (by simp [he])
    simp only [executeRunGo]
    rw [if_neg hhead]
    rw [ih _ _ htail]
    obtain ⟨rid, pr, st, pl, lg, ca, cm, er⟩ := run
    simp [runTrace]

/-- Fail-fast form of `execute_run`'s loop: if every step before `s`
yields a non-failed terminal entry and `s`'s terminal entry is failed, the
loop appends the prefix trace plus `s`'s entry, marks the run failed with
the step's formatted error, and never reaches the remaining steps. -/
theorem executeRunGo_fail_fast (cfg : ExecutionConfig) (env : Env) (now : ℕ)
    (s : PlanStep) (post : List PlanStep) :
    ∀ (pre : List PlanStep) (run : Run) (c : ℕ),
      (∀ e ∈ (runTrace cfg env now pre c).1, e.status ≠ .failed) →
      (execute_step_with_retry cfg env now s (runTrace cfg env now pre c).2).1.status
        = .failed →
      executeRunGo cfg env now run (pre ++ s :: post) c
        = { run with
            status := .failed,
            execution_log := run.execution_log ++ (runTrace cfg env now pre c).1
              ++ [(execute_step_with_retry cfg env now s (runTrace cfg env now pre c).2).1],
            error := some ("Step " ++ toString s.step_number ++ " failed: "
              ++ pyStrOpt (execute_step_with_retry cfg env now s
                    (runTrace cfg env now pre c).2).1.error),
            completed_at := some now } := by
  intro pre
  induction pre with
  | nil =>
    intro run c hpre hfail
    simp only [runTrace] at hfail ⊢
    simp only [List.nil_append, executeRunGo]
    rw [if_pos hfail]
    obtain ⟨rid, pr, st, pl, lg, ca, cm, er⟩ := run
    simp
  | cons p pre ih =>
    intro run c hpre hfail
    simp only [runTrace] at hpre hfail ⊢
    have hhead : (execute_step_with_retry cfg env now p c).1.status ≠ .failed := by
      exact hpre _ (by simp)
    have htail : ∀ e ∈ (runTrace cfg env now pre
        (c + (execute_step_with_retry cfg env now p c).1.attempt)).1,
        e.status ≠ .failed := by
      intro e he
      exact hpre e (by simp [he])
    simp only [List.cons_append, executeRunGo]
    rw [if_neg hhead]
    simp only [List.append_eq]
    rw [ih _ _ htail hfail]
    obtain ⟨rid, pr, st, pl, lg, ca, cm, er⟩ := run
    simp

/-- The run loop always ends in a terminal status. -/
theorem executeRunGo_terminal (cfg : ExecutionConfig) (env : Env) (now : ℕ) :
    ∀ (steps : List PlanStep) (run : Run) (c : ℕ),
      (executeRunGo cfg env now run steps c).status = .completed ∨
      (executeRunGo cfg env now run steps c).status = .failed := by
  intro steps
  induction steps with
  | nil => intro run c; left; rfl
  | cons step rest ih =>
    intro run c
    simp only [executeRunGo]
    by_cases h : (execute_step_with_retry cfg env now step c).1.status = .failed
    · right; simp [h]
    · rw [if_neg h]; exact ih _ _

/-! ## Claim C1: sequential fail-fast -/

/-- C1: for every run and plan, when `execute_run` reaches a step whose
terminal log entry has status failed (all earlier steps' entries being
non-failed), it appends exactly one entry for the failing step, sets
run.status to failed, run.error to "Step {n} failed: {entry.error}", sets
run.completed_at, and returns immediately: the steps after the failing
one do not appear in the result at all. -/
theorem execute_run_fail_fast (cfg : ExecutionConfig) (env : Env) (now : ℕ)
    (run : Run) (plan : Plan) (pre : List PlanStep) (s : PlanStep)
    (post : List PlanStep)
    (hsteps : plan.steps = pre ++ s :: post)
    (hpre : ∀ e ∈ (runTrace cfg env now pre 0).1, e.status ≠ .failed)
    (hfail : (execute_step_with_retry cfg env now s
        (runTrace cfg env now pre 0).2).1.status = .failed) :
    execute_run cfg env now run plan
      = { run with
          plan := some plan,
          status := .failed,
          execution_log := run.execution_log ++ (runTrace cfg env now pre 0).1
            ++ [(execute_step_with_retry cfg env now s (runTrace cfg env now pre 0).2).1],
          error := some ("Step " ++ toString s.step_number ++ " failed: "
            ++ pyStrOpt (execute_step_with_retry cfg env now s
                  (runTrace cfg env now pre 0).2).1.error),
          completed_at := some now } := by
  unfold execute_run
  rw [hsteps]
  rw [executeRunGo_fail_fast cfg env now s post pre _ 0 hpre hfail]

/-- C1 witness: a two-step plan whose first step always raises appends a
single failed entry for step 1 with the formatted error; step 2 is never
reached. -/
theorem execute_run_fail_fast_witness :
    ((sampleRun .pending none [] none).plan = none →
      (∀ e ∈ (runTrace defaultConfig (fun _ _ => .exn "boom") 0 [] 0).1,
        e.status ≠ .failed)) ∧
    execute_run defaultConfig (fun _ _ => .exn "boom") 0 (sampleRun .pending none [] none)
        { plan_id := "p1",
          steps := [{ step_number := 1, tool := "T", input := [], reasoning := "" },
                    { step_number := 2, tool := "T", input := [], reasoning := "" }] }
      = { sampleRun .pending none [] none with
          plan := some
            { plan_id := "p1",
              steps := [{ step_number := 1, tool := "T", input := [], reasoning := "" },
                        { step_number := 2, tool := "T", input := [], reasoning := "" }] },
          status := .failed,
          execution_log := (sampleRun .pending none [] none).execution_log
            ++ (runTrace defaultConfig (fun _ _ => .exn "boom") 0 [] 0).1
            ++ [(execute_step_with_retry defaultConfig (fun _ _ => .exn "boom") 0
                  { step_number := 1, tool := "T", input := [], reasoning := "" }
                  (runTrace defaultConfig (fun _ _ => .exn "boom") 0 [] 0).2).1],
          error := some ("Step "
            ++ toString ({ step_number := 1, tool := "T", input := [], reasoning := "" } : PlanStep).step_number
            ++ " failed: "
            ++ pyStrOpt (execute_step_with_retry defaultConfig (fun _ _ => .exn "boom") 0
                  { step_number := 1, tool := "T", input := [], reasoning := "" }
                  (runTrace defaultConfig (fun _ _ => .exn "boom") 0 [] 0).2).1.error),
          completed_at := some 0 } :=
  ⟨fun _ e he => absurd he (by simp [runTrace]),
   execute_run_fail_fast defaultConfig (fun _ _ => .exn "boom") 0
     (sampleRun .pending none [] none)
     { plan_id := "p1",
       steps := [{ step_number := 1, tool := "T", input := [], reasoning := "" },
                 { step_number := 2, tool := "T", input := [], reasoning := "" }] }
     [] { step_number := 1, tool := "T", input := [], reasoning := "" }
     [{ step_number := 2, tool := "T", input := [], reasoning := "" }]
     rfl (fun e he => absurd he (by simp [runTrace])) (by decide)⟩

/-! ## Claim C10: the empty plan -/

/-- C10: for every run, `execute_run` with an empty-step plan appends no
log entries and terminates with status completed and completed_at set:
the non-empty-plan precondition is not validated. -/
theorem empty_plan_trivially_completes (cfg : ExecutionConfig) (env : Env)
    (now : ℕ) (run : Run) (plan : Plan) (h : plan.steps = []) :
    execute_run cfg env now run plan
      = { run with plan := some plan, status := .completed, completed_at := some now } := by
  unfold execute_run
  rw [h]
  rfl

/-- C10 witness: a pending run with a concrete empty plan completes with
an unchanged (empty) log. -/
theorem empty_plan_trivially_completes_witness :
    execute_run defaultConfig (fun _ _ => .exn "boom") 0
        (sampleRun .pending none [] none) { plan_id := "e", steps := [] }
      = { sampleRun .pending none [] none with
          plan := some { plan_id := "e", steps := [] },
          status := .completed, completed_at := some 0 } :=
  empty_plan_trivially_completes defaultConfig (fun _ _ => .exn "boom") 0
    (sampleRun .pending none [] none) { plan_id := "e", steps := [] } rfl

/-! ## Claim C3: the orchestrator's exception boundary -/

/-- The resume loop always ends in a terminal status. -/
theorem resumeGo_terminal (cfg : ExecutionConfig) (env : Env) (now : ℕ) (last : Int) :
    ∀ (steps : List PlanStep) (run : Run) (c : ℕ),
      (resumeGo cfg env now last run steps c).status = .completed ∨
      (resumeGo cfg env now last run steps c).status = .failed := by
  intro steps
  induction steps with
  | nil => intro run c; left; rfl
  | cons step rest ih =>
    intro run c
    simp only [resumeGo]
    by_cases hskip : step.step_number ≤ last
    · rw [if_pos hskip]; exact ih _ _
    · rw [if_neg hskip]
      by_cases h : (execute_step_with_retry cfg env now step c).1.status = .failed
      · right; simp [h]
      · rw [if_neg h]; exact ih _ _

/-- C3 counterexample: `resume_run` does not return a Run for every run;
called on a completed run (so `can_retry_run` is false) it propagates a
`ValueError` to the caller — the model's exception component is set. -/
theorem resume_run_raises_counterexample :
    (resume_run defaultConfig (fun _ _ => .exn "x") 0
      (sampleRun .completed none [] none)).2 = some "Run cannot be resumed" := rfl

/-- C3 (amended): `execute_run` always returns a Run in a terminal state
(completed or failed) and never propagates an exception; `resume_run`
returns a Run without propagating an exception exactly when its
preconditions hold (`can_retry_run` true and a plan present) — when they
do not, it raises a `ValueError` instead of returning. -/
theorem orchestrator_boundary_amended (cfg : ExecutionConfig) (env : Env)
    (now : ℕ) (run : Run) (plan : Plan) (run2 : Run) :
    ((execute_run cfg env now run plan).status = .completed ∨
     (execute_run cfg env now run plan).status = .failed) ∧
    ((resume_run cfg env now run2).2 = none ↔
      (can_retry_run run2 = true ∧ run2.plan ≠ none)) := by
  constructor
  · exact executeRunGo_terminal cfg env now plan.steps _ 0
  · unfold resume_run
    by_cases hc : can_retry_run run2 = true
    · cases hp : run2.plan with
      | none => simp [hc, hp]
      | some p => simp [hc, hp]
    · simp [hc]

/-- C3 witness: concrete instances of both conjuncts — a one-step
always-failing plan yields a terminal run, and a resumable failed run's
resume propagates no exception. -/
theorem orchestrator_boundary_amended_witness :
    ((execute_run defaultConfig (fun _ _ => .exn "boom") 0
        (sampleRun .pending none [] none)
        { plan_id := "p1",
          steps := [{ step_number := 1, tool := "T", input := [], reasoning := "" }] }).status
        = .completed ∨
     (execute_run defaultConfig (fun _ _ => .exn "boom") 0
        (sampleRun .pending none [] none)
        { plan_id := "p1",
          steps := [{ step_number := 1, tool := "T", input := [], reasoning := "" }] }).status
        = .failed) ∧
    ((resume_run defaultConfig (fun _ _ => .exn "boom") 0
        (sampleRun .failed (some { plan_id := "e", steps := [] }) [] (some "x"))).2 = none ↔
      (can_retry_run (sampleRun .failed (some { plan_id := "e", steps := [] }) [] (some "x")) = true ∧
       (sampleRun .failed (some { plan_id := "e", steps := [] }) [] (some "x")).plan ≠ none)) :=
  orchestrator_boundary_amended defaultConfig (fun _ _ => .exn "boom") 0
    (sampleRun .pending none [] none)
    { plan_id := "p1",
      steps := [{ step_number := 1, tool := "T", input := [], reasoning := "" }] }
    (sampleRun .failed (some { plan_id := "e", steps := [] }) [] (some "x"))

/-! ## Claim C4: the resume-safety check -/

theorem opIsAdd_eq_true_iff (input : Input) :
    opIsAdd input = true ↔ pyGet input "operation" = some (.vStr "add") := by
  unfold opIsAdd
  cases h : pyGet input "operation" with
  | none => simp
  | some v => cases v <;> simp

/-- C4: `can_retry_run` returns false for every run whose status is not
failed; false for every failed run whose log contains a completed entry
with tool "TodoStore" and input operation "add"; and true for every other
failed run. -/
theorem can_retry_run_characterization (run : Run) :
    can_retry_run run = true ↔
      (run.status = .failed ∧
        ∀ e ∈ run.execution_log,
          ¬ (e.status = .completed ∧ e.tool = "TodoStore" ∧
             pyGet e.input "operation" = some (.vStr "add"))) := by
  unfold can_retry_run
  by_cases hs : run.status = RunStatus.failed
  · rw [if_neg (by simp [hs])]
    by_cases ha : (run.execution_log.filter
        (fun log => decide (log.status = StepStatus.completed))).any
        (fun log => log.tool == "TodoStore" && opIsAdd log.input) = true
    · rw [if_pos ha]
      simp only [List.any_eq_true, List.mem_filter, Bool.and_eq_true, beq_iff_eq,
        decide_eq_true_eq, opIsAdd_eq_true_iff] at ha
      obtain ⟨e, ⟨hmem, hst⟩, htool, hop⟩ := ha
      constructor
      · intro h; exact absurd h (by simp)
      · rintro ⟨-, hall⟩
        exact absurd ⟨hst, htool, hop⟩ (hall e hmem)
    · rw [if_neg ha]
      simp only [List.any_eq_true, List.mem_filter, Bool.and_eq_true, beq_iff_eq,
        decide_eq_true_eq, opIsAdd_eq_true_iff, not_exists, not_and] at ha
      push_neg at ha
      constructor
      · intro _
        refine ⟨hs, fun e hmem => ?_⟩
        rintro ⟨hst, htool, hop⟩
        exact absurd hop (ha e ⟨hmem, hst⟩ htool)
      · intro _; rfl
  · rw [if_pos (by simp [hs])]
    constructor
    · intro h; exact absurd h (by simp)
    · rintro ⟨h, -⟩; exact absurd h hs

/-- C4 witness: a failed run whose log holds one completed TodoStore add
entry cannot be retried; removing the entry makes it retryable. -/
theorem can_retry_run_characterization_witness :
    can_retry_run (sampleRun .failed none [] none) = true ∧
    ¬ can_retry_run (sampleRun .failed none
        [{ step_number := 1, tool := "TodoStore",
           input := [("operation", Value.vStr "add"), ("title", Value.vStr "Buy milk")],
           output := none, status := .completed, error := none, attempt := 1,
           started_at := 0, completed_at := some 0 }] none) = true ∧
    ¬ can_retry_run (sampleRun .completed none [] none) = true :=
  ⟨(can_retry_run_characterization (sampleRun .failed none [] none)).mpr
      ⟨rfl, by simp [sampleRun]⟩,
   fun h => by
     have := ((can_retry_run_characterization _).mp h).2
       { step_number := 1, tool := "TodoStore",
         input := [("operation", Value.vStr "add"), ("title", Value.vStr "Buy milk")],
         output := none, status := .completed, error := none, attempt := 1,
         started_at := 0, completed_at := some 0 } (by simp [sampleRun])
     exact this ⟨rfl, rfl, rfl⟩,
   fun h => by
     have := ((can_retry_run_characterization _).mp h).1
     simp [sampleRun] at this⟩

/-! ## Claim C7: precondition violations leave the run untouched -/

/-- C7: for every run where `can_retry_run` is false or the plan is
absent, `resume_run` raises a policy-violation `ValueError` and the run is
returned completely unchanged — no field mutated, no log entry appended. -/
theorem resume_precondition_no_mutation (cfg : ExecutionConfig) (env : Env)
    (now : ℕ) (run : Run)
    (h : can_retry_run run = false ∨ run.plan = none) :
    (resume_run cfg env now run).1 = run ∧
    ((resume_run cfg env now run).2 = some "Run cannot be resumed" ∨
     (resume_run cfg env now run).2 = some "Run has no plan to resume") := by
  unfold resume_run
  by_cases hc : can_retry_run run = true
  · have hp : run.plan = none := by
      cases h with
      | inl h' => rw [hc] at h'; exact absurd h' (by simp)
      | inr h' => exact h'
    simp [hc, hp]
  · simp [hc]

/-- C7 witness: resuming a pending run (not failed, hence not retryable)
raises and leaves the run exactly as it was. -/
theorem resume_precondition_no_mutation_witness :
    can_retry_run (sampleRun .pending none [] none) = false ∧
    (resume_run defaultConfig (fun _ _ => .exn "x") 0
        (sampleRun .pending none [] none)).1 = sampleRun .pending none [] none ∧
    ((resume_run defaultConfig (fun _ _ => .exn "x") 0
        (sampleRun .pending none [] none)).2 = some "Run cannot be resumed" ∨
     (resume_run defaultConfig (fun _ _ => .exn "x") 0
        (sampleRun .pending none [] none)).2 = some "Run has no plan to resume") :=
  ⟨rfl,
   (resume_precondition_no_mutation defaultConfig (fun _ _ => .exn "x") 0
      (sampleRun .pending none [] none) (Or.inl rfl)).1,
   (resume_precondition_no_mutation defaultConfig (fun _ _ => .exn "x") 0
      (sampleRun .pending none [] none) (Or.inl rfl)).2⟩

/-! ## Claim C5: resume correctness -/

/-- A step whose first tool call returns a successful result terminates
the retry loop immediately with the first attempt's entry and no sleep. -/
theorem execute_step_with_retry_first_success (cfg : ExecutionConfig) (env : Env)
    (now : ℕ) (step : PlanStep) (c : ℕ) (r : ToolResult)
    (h : env c step = .ok r) (hr : r.success = true) :
    execute_step_with_retry cfg env now step c = (successEntry step r now, []) := by
  unfold execute_step_with_retry
  rw [retryGo.eq_def]
  simp only [Nat.add_zero, h]
  have : attemptEntry step now (0 + 1) (.ok r) = successEntry step r now := by
    simp [attemptEntry, runningEntry, successEntry, hr]
  rw [this]
  simp [successEntry]

/-- Under an environment that always returns a success, the resume loop
appends exactly one first-attempt entry per non-skipped step (those with
step_number above `last`), completes the run and clears its error. -/
theorem resumeGo_all_success (cfg : ExecutionConfig) (env : Env) (now : ℕ)
    (last : Int) (res : PlanStep → ToolResult)
    (henv : ∀ n s, env n s = .ok (res s)) (hsucc : ∀ s, (res s).success = true) :
    ∀ (steps : List PlanStep) (run : Run) (c : ℕ),
      resumeGo cfg env now last run steps c
        = { run with
            status := .completed,
            execution_log := run.execution_log
              ++ ((steps.filter (fun s => decide (last < s.step_number))).map
                  (fun s => successEntry s (res s) now)),
            completed_at := some now,
            error := none } := by
  intro steps
  induction steps with
  | nil =>
    intro run c
    simp [resumeGo]
  | cons step rest ih =>
    intro run c
    simp only [resumeGo]
    by_cases hskip : step.step_number ≤ last
    · rw [if_pos hskip]
      rw [ih _ _]
      have : decide (last < step.step_number) = false := by
        simp; omega
      simp [List.filter_cons, this]
    · rw [if_neg hskip]
      rw [execute_step_with_retry_first_success cfg env now step c (res step)
        (henv c step) (hsucc step)]
      have hterm : (successEntry step (res step) now).status ≠ StepStatus.failed := by
        simp [successEntry]
      rw [if_neg hterm]
      rw [ih _ _]
      have : decide (last < step.step_number) = true := by
        simp; omega
      obtain ⟨rid, pr, st, pl, lg, ca, cm, er⟩ := run
      simp [List.filter_cons, this, successEntry]

/-- C5 counterexample: in a failed run whose only completed entry has
step_number -2, the claim's resume floor ("the maximum step_number among
completed log entries") is -2, so the plan's step numbered -1 should be
re-executed and produce a new log entry; instead `resume_run` (whose
floor is `max(0, ...)`, the fold starting at 0) skips every step, leaves
the log unchanged, and reports success. -/
theorem resume_negative_step_counterexample :
    can_retry_run negRun = true ∧
    negRun.plan = some negPlan ∧
    negRun.execution_log = [negEntryA, negEntryB] ∧
    negEntryA.status = .completed ∧
    negEntryA.step_number = -2 ∧
    negEntryB.status = .failed ∧
    negPlan.steps.map PlanStep.step_number = [-2, -1] ∧
    ((-2 : Int) < -1) ∧
    (resume_run defaultConfig envAlwaysOk 0 negRun).1.execution_log
      = [negEntryA, negEntryB] ∧
    (resume_run defaultConfig envAlwaysOk 0 negRun).1.status = .completed :=
  ⟨rfl, rfl, rfl, rfl, rfl, rfl, rfl, by norm_num, rfl, rfl⟩

/-- C5 (amended): for every failed run with a plan where `can_retry_run`
holds and whose remaining steps all succeed, `resume_run` executes exactly
the plan steps whose step_number is strictly greater than the maximum of 0
and the step_numbers of completed log entries (the fold of `max` starting
at 0), leaves all pre-existing log entries unchanged (appending after
them), sets status=completed, sets completed_at, and resets run.error to
absent. -/
theorem resume_correctness_amended (cfg : ExecutionConfig) (env : Env) (now : ℕ)
    (run : Run) (plan : Plan) (res : PlanStep → ToolResult)
    (hcan : can_retry_run run = true)
    (hplan : run.plan = some plan)
    (henv : ∀ n s, env n s = .ok (res s))
    (hsucc : ∀ s, (res s).success = true) :
    resume_run cfg env now run
      = ({ run with
           status := .completed,
           execution_log := run.execution_log
             ++ ((plan.steps.filter
                  (fun s => decide (lastCompletedStep run < s.step_number))).map
                 (fun s => successEntry s (res s) now)),
           completed_at := some now,
           error := none }, none) := by
  unfold resume_run
  rw [if_neg (by simp [hcan])]
  rw [hplan]
  dsimp only
  rw [resumeGo_all_success cfg env now (lastCompletedStep run) res henv hsucc]

/-- C5 witness: a failed run with an empty log over a one-step plan
resumes by executing that step once and completing with a cleared
error. -/
theorem resume_correctness_amended_witness :
    resume_run defaultConfig envAlwaysOk 0
        (sampleRun .failed
          (some { plan_id := "w5",
                  steps := [{ step_number := 1, tool := "T", input := [], reasoning := "" }] })
          [] (some "old failure"))
      = ({ sampleRun .failed
            (some { plan_id := "w5",
                    steps := [{ step_number := 1, tool := "T", input := [], reasoning := "" }] })
            [] (some "old failure") with
           status := .completed,
           execution_log := (sampleRun .failed
              (some { plan_id := "w5",
                      steps := [{ step_number := 1, tool := "T", input := [], reasoning := "" }] })
              [] (some "old failure")).execution_log
             ++ ((({ plan_id := "w5",
                     steps := [{ step_number := 1, tool := "T", input := [], reasoning := "" }] } : Plan).steps.filter
                  (fun s => decide (lastCompletedStep (sampleRun .failed
                    (some { plan_id := "w5",
                            steps := [{ step_number := 1, tool := "T", input := [], reasoning := "" }] })
                    [] (some "old failure")) < s.step_number))).map
                 (fun s => successEntry s
                   ({ success := true, output := none, error := none } : ToolResult) 0)),
           completed_at := some 0,
           error := none }, none) :=
  resume_correctness_amended defaultConfig envAlwaysOk 0
    (sampleRun .failed
      (some { plan_id := "w5",
              steps := [{ step_number := 1, tool := "T", input := [], reasoning := "" }] })
      [] (some "old failure"))
    { plan_id := "w5",
      steps := [{ step_number := 1, tool := "T", input := [], reasoning := "" }] }
    (fun _ => { success := true, output := none, error := none })
    rfl rfl (fun _ _ => rfl) (fun _ => rfl)

/-! ## Claim C9: ToolResult exclusivity of the bundled tools -/

theorem append_ne_empty (s t : String) (h : s ≠ "") : s ++ t ≠ "" := by
  intro he
  apply h
  have hd : (s ++ t).data = s.data ++ t.data := by cases s; cases t; rfl
  rw [he] at hd
  have h2 : s.data = [] := (List.append_eq_nil.mp hd.symm).1
  cases s
  exact congrArg String.mk h2

theorem resultExclusive_fail (e : String) (he : e ≠ "") :
    resultExclusive { success := false, output := none, error := some e } := by
  constructor
  · intro h; exact absurd h (by simp)
  · intro _; exact ⟨rfl, e, rfl, he⟩

theorem resultExclusive_ok (out : Option Value) :
    resultExclusive { success := true, output := out, error := none } := by
  constructor
  · intro _; rfl
  · intro h; exact absurd h (by simp)

/-- Every return path of `Calculator.execute` yields an exclusive result,
for any behavior of the `ast.parse` and `operator.pow` builtins. -/
theorem calculator_exclusive (parse : String → Except String PyExpr)
    (powFn : ℚ → ℚ → Except PyEvalErr ℚ) (input_data : Input) :
    resultExclusive (calculatorExecute parse powFn input_data) := by
  unfold calculatorExecute
  dsimp only
  split
  · exact resultExclusive_fail _ (by decide)
  · split
    · split
      · exact resultExclusive_fail _ (by decide)
      · split
        · exact resultExclusive_fail _
            (append_ne_empty _ _ (append_ne_empty _ _ (by decide)))
        · split
          · exact resultExclusive_fail _ (by decide)
          · split
            · exact resultExclusive_ok _
            · exact resultExclusive_fail _ (by decide)
            · exact resultExclusive_fail _ (append_ne_empty _ _ (by decide))
    · exact resultExclusive_fail _ (by decide)

theorem listTodos_exclusive (st : TodoState) : resultExclusive (listTodos st) := by
  unfold listTodos
  exact resultExclusive_ok _

theorem addTodo_ok_exclusive (input_data : Input) (st : TodoState) (freshId : String)
    (now : ℕ) (r : ToolResult) (st' : TodoState)
    (h : addTodo input_data st freshId now = Except.ok (r, st')) :
    resultExclusive r := by
  unfold addTodo at h
  cases hp : pyStrip (pyGetD input_data "title" (.vStr "")) with
  | error e => rw [hp] at h; exact absurd h (by simp [Bind.bind, Except.bind])
  | ok title =>
    rw [hp] at h
    simp only [Bind.bind, Except.bind] at h
    split at h
    · simp only [pure, Except.pure, Except.ok.injEq, Prod.mk.injEq] at h
      rw [← h.1]
      exact resultExclusive_fail _ (by decide)
    · simp only [pure, Except.pure, Except.ok.injEq, Prod.mk.injEq] at h
      rw [← h.1]
      exact resultExclusive_ok _

theorem completeTodo_ok_exclusive (input_data : Input) (st : TodoState) (now : ℕ)
    (r : ToolResult) (st' : TodoState)
    (h : completeTodo input_data st now = Except.ok (r, st')) :
    resultExclusive r := by
  unfold completeTodo at h
  cases hp : pyStrip (pyGetD input_data "todo_id" (.vStr "")) with
  | error e => rw [hp] at h; exact absurd h (by simp [Bind.bind, Except.bind])
  | ok tid =>
    rw [hp] at h
    simp only [Bind.bind, Except.bind] at h
    split at h
    · simp only [pure, Except.pure, Except.ok.injEq, Prod.mk.injEq] at h
      rw [← h.1]
      exact resultExclusive_fail _ (by decide)
    · split at h
      · simp only [pure, Except.pure, Except.ok.injEq, Prod.mk.injEq] at h
        rw [← h.1]
        exact resultExclusive_fail _ (append_ne_empty _ _ (append_ne_empty _ _ (by decide)))
      · split at h
        · simp only [pure, Except.pure, Except.ok.injEq, Prod.mk.injEq] at h
          rw [← h.1]
          exact resultExclusive_ok _
        · simp only [pure, Except.pure, Except.ok.injEq, Prod.mk.injEq] at h
          rw [← h.1]
          exact resultExclusive_ok _

theorem deleteTodo_ok_exclusive (input_data : Input) (st : TodoState)
    (r : ToolResult) (st' : TodoState)
    (h : deleteTodo input_data st = Except.ok (r, st')) :
    resultExclusive r := by
  unfold deleteTodo at h
  cases hp : pyStrip (pyGetD input_data "todo_id" (.vStr "")) with
  | error e => rw [hp] at h; exact absurd h (by simp [Bind.bind, Except.bind])
  | ok tid =>
    rw [hp] at h
    simp only [Bind.bind, Except.bind] at h
    split at h
    · simp only [pure, Except.pure, Except.ok.injEq, Prod.mk.injEq] at h
      rw [← h.1]
      exact resultExclusive_fail _ (by decide)
    · split at h
      · simp only [pure, Except.pure, Except.ok.injEq, Prod.mk.injEq] at h
        rw [← h.1]
        exact resultExclusive_fail _ (append_ne_empty _ _ (append_ne_empty _ _ (by decide)))
      · simp only [pure, Except.pure, Except.ok.injEq, Prod.mk.injEq] at h
        rw [← h.1]
        exact resultExclusive_ok _

theorem todoExecute_ok_exclusive (input_data : Input) (st : TodoState)
    (freshId : String) (now : ℕ) (r : ToolResult) (st' : TodoState)
    (h : todoExecute input_data st freshId now = Except.ok (r, st')) :
    resultExclusive r := by
  unfold todoExecute at h
  dsimp only at h
  split at h
  · simp only [Except.ok.injEq, Prod.mk.injEq] at h
    rw [← h.1]
    exact resultExclusive_fail _ (by decide)
  · split at h
    · split at h
      · simp only [Except.ok.injEq, Prod.mk.injEq] at h
        rw [← h.1]
        exact resultExclusive_fail _ (append_ne_empty _ _ (append_ne_empty _ _ (by decide)))
      · split at h
        · exact addTodo_ok_exclusive _ _ _ _ _ _ h
        · split at h
          · simp only [Except.ok.injEq, Prod.mk.injEq] at h
            rw [← h.1]
            exact listTodos_exclusive _
          · split at h
            · exact completeTodo_ok_exclusive _ _ _ _ _ h
            · exact deleteTodo_ok_exclusive _ _ _ _ h
    · simp only [Except.ok.injEq, Prod.mk.injEq] at h
      rw [← h.1]
      exact resultExclusive_fail _ (by decide)

/-- C9 counterexample: `TodoStore.execute` does not return a ToolResult
for every input mapping — on `{"operation": "add", "title": 42}` the
source calls `42 .strip()` and raises `AttributeError`, so no ToolResult
is produced (the model's exception branch is taken). -/
theorem todo_execute_raises_counterexample :
    todoExecute [("operation", Value.vStr "add"), ("title", Value.vInt 42)] [] "id-0" 0
      = Except.error "'int' object has no attribute 'strip'" := rfl

/-- C9 (amended): for every input mapping, `Calculator.execute` returns a
ToolResult in which success=true implies error is absent and success=false
implies a present non-empty error and absent output; `TodoStore.execute`
satisfies the same exclusivity whenever it returns a ToolResult (it raises
`AttributeError` instead of returning when the supplied title/todo_id
value is not a string). -/
theorem tool_result_exclusivity :
    (∀ (parse : String → Except String PyExpr)
       (powFn : ℚ → ℚ → Except PyEvalErr ℚ) (input_data : Input),
      resultExclusive (calculatorExecute parse powFn input_data)) ∧
    (∀ (input_data : Input) (st : TodoState) (freshId : String) (now : ℕ)
       (r : ToolResult) (st' : TodoState),
      todoExecute input_data st freshId now = Except.ok (r, st') →
      resultExclusive r) :=
  ⟨calculator_exclusive, todoExecute_ok_exclusive⟩

/-- C9 witness: concrete instances — the calculator on an empty input
mapping, and the todo store listing an empty store. -/
theorem tool_result_exclusivity_witness :
    resultExclusive (calculatorExecute (fun _ => .error "e") (fun _ _ => .error .zeroDiv) []) ∧
    todoExecute [("operation", Value.vStr "list")] [] "id" 0
      = Except.ok (listTodos [], []) ∧
    resultExclusive (listTodos []) :=
  ⟨tool_result_exclusivity.1 (fun _ => .error "e") (fun _ _ => .error .zeroDiv) [],
   rfl,
   tool_result_exclusivity.2 [("operation", Value.vStr "list")] [] "id" 0
     (listTodos []) [] rfl⟩

end AgentRuntime
